import Mathlib

/-!
Shallow embedding of the microclaw skill package manager's registry client,
retry wrapper and CLI handlers, together with proofs about their behaviour.

The embedding follows:
  * crates/microclaw-clawhub/src/client.rs (ClawHubClient: search, get_skill,
    download_skill, get_versions)
  * src/clawhub/cli.rs (retry_with_backoff, handle_skill_cli)
  * src/clawhub/service.rs (ClawHubGateway)
HTTP traffic is modelled by explicit "world" functions mapping a request to
its outcome, so every network-dependent function becomes a pure function of
the world.
-/

deriving instance DecidableEq for Except

/-- Error type of the package manager.  The sources under src/ only construct
the `Config` variant (client.rs, cli.rs); the remaining kinds are modelled
from the spec's error taxonomy (`RegistryError` is represented by `Config`
in client.rs, which maps network/transport/decode failures to it). -/
inductive MicroClawError where
  | Config : String → MicroClawError
  | NotFound : String → MicroClawError
  | GateDenied : String → MicroClawError
  | FilesystemError : String → MicroClawError
  | ParseError : String → MicroClawError
deriving DecidableEq, Repr

/-- Modelled from the spec: the CLI prints "the error message" of a failure
(`Display` for the error type is not among the provided sources); rendering
extracts the message payload. -/
def MicroClawError.render : MicroClawError → String
  | .Config m => m
  | .NotFound m => m
  | .GateDenied m => m
  | .FilesystemError m => m
  | .ParseError m => m

/-- Scan-status summary attached to search results and skill metadata
(fields as used by cli.rs: `vt.status`, `vt.report_count`). -/
structure VirusTotalSummary where
  status : String
  report_count : Nat
deriving DecidableEq, Repr

/-- One search hit (fields as used by cli.rs: slug, name, description,
install_count, virustotal). -/
structure SearchResult where
  slug : String
  name : String
  description : String
  install_count : Nat
  virustotal : Option VirusTotalSummary
deriving DecidableEq, Repr

/-- One version entry of a skill (fields as used by cli.rs: `v.version`,
`v.latest`). -/
structure SkillVersion where
  version : String
  latest : Bool
deriving DecidableEq, Repr

/-- Skill metadata (fields as used by cli.rs: slug, name, description,
versions, virustotal). -/
structure SkillMeta where
  slug : String
  name : String
  description : String
  versions : List SkillVersion
  virustotal : Option VirusTotalSummary
deriving DecidableEq, Repr

/-- Wire schema of the search endpoint: `{ results: [...] }`.  types.rs is
not among the provided sources; per the spec's wire contract the items carry
the same fields as `SearchResult` and `SearchResult::from` is the field-wise
conversion, so the items are represented by `SearchResult` directly. -/
structure ApiSearchResponse where
  results : List SearchResult
deriving DecidableEq, Repr

/-- One lockfile entry (fields as used by cli.rs: installed_version,
installed_at). -/
structure LockEntry where
  installed_version : String
  installed_at : String
deriving DecidableEq, Repr

/-- The lockfile: a mapping from slug to lock entry (cli.rs iterates
`lock.skills` as (slug, entry) pairs). -/
structure LockFile where
  skills : List (String × LockEntry)
deriving DecidableEq, Repr

/-- An HTTP request as built by the client: a URL plus headers. -/
structure HttpRequest where
  url : String
  headers : List (String × String)
deriving DecidableEq, Repr

/-- The `if let Some(ref token) = self.token { req.header("Authorization",
format!("Bearer {}", token)) }` pattern shared by every request in
client.rs. -/
def authHeaders : Option String → List (String × String)
  | none => []
  | some token => [("Authorization", "Bearer " ++ token)]

/-- Does `needle` occur as a prefix of some suffix of the list?  Helper for
`containsSubstr`. -/
def hasInfixAux (needle : List Char) : List Char → Bool
  | [] => needle.isEmpty
  | c :: tl => needle.isPrefixOf (c :: tl) || hasInfixAux needle tl

/-- Rust `str::contains(pat)`: substring containment, used by download_skill
via `self.base_url.contains("clawhub.ai")`. -/
def containsSubstr (s pat : String) : Bool :=
  hasInfixAux pat.data s.data

/-- First candidate URL: the "download by query parameters" form
(client.rs line 77). -/
def downloadQueryForm (base_url slug version : String) : String :=
  base_url ++ "/api/v1/download?slug=" ++ slug ++ "&version=" ++ version

/-- Second candidate URL: the "download by path" form (client.rs line 81). -/
def downloadPathForm (base_url slug version : String) : String :=
  base_url ++ "/api/v1/skills/" ++ slug ++ "/download?version=" ++ version

/-- The hard-coded legacy mirror URL (client.rs line 89). -/
def legacyMirrorUrl (slug version : String) : String :=
  "https://wry-manatee-359.convex.site/api/v1/download?slug=" ++ slug
    ++ "&version=" ++ version

/-- The ordered candidate list built by download_skill (client.rs lines
76-93): the two base-derived forms, plus the legacy mirror when the base URL
contains the substring "clawhub.ai". -/
def candidateUrls (base_url slug version : String) : List String :=
  let urls := [downloadQueryForm base_url slug version,
               downloadPathForm base_url slug version]
  if containsSubstr base_url "clawhub.ai" then
    urls ++ [legacyMirrorUrl slug version]
  else
    urls

/-- Modelled from the spec: extract "the configured registry host" from a
base URL — the text between the scheme separator "://" and the first "/",
with any ":port" suffix removed.  Used only to compare the spec's wording
("host matches the production registry domain") with the code's substring
check. -/
def schemeSplitAux : List Char → Option (List Char)
  | ':' :: '/' :: '/' :: rest => some rest
  | _ :: rest => schemeSplitAux rest
  | [] => none

/-- Modelled from the spec: the host component of a URL (see
`schemeSplitAux`). -/
def spec_hostOf (url : String) : String :=
  let rest := (schemeSplitAux url.data).getD url.data
  String.mk ((rest.takeWhile (fun c => c != '/')).takeWhile (fun c => c != ':'))

/-- An HTTP response as consumed by download_skill: a status code and a body
read that may itself fail (`resp.bytes().await` is fallible). -/
structure HttpResponse where
  status : Nat
  body : Except String (List Nat)
deriving DecidableEq, Repr

/-- The network, seen by download_skill: each request either fails to send
(transport error) or produces a response. -/
def DownloadWorld : Type :=
  HttpRequest → Except String HttpResponse

/-- `reqwest::Response::error_for_status`: fails exactly on client-error
(4xx) and server-error (5xx) statuses. -/
def statusIsError (status : Nat) : Bool :=
  400 ≤ status && status ≤ 599

/-- The request download_skill sends for one candidate URL (client.rs lines
97-100). -/
def downloadRequest (token : Option String) (url : String) : HttpRequest :=
  { url := url, headers := authHeaders token }

/-- The error recorded when a candidate's send fails (client.rs lines
104-110). -/
def sendErrorOf (url e : String) : MicroClawError :=
  .Config ("ClawHub download failed at " ++ url ++ ": " ++ e)

/-- The error recorded when a candidate responds with a 4xx/5xx status
(client.rs lines 113-122); the reqwest error display is rendered as the
status code. -/
def httpErrorOf (url : String) (status : Nat) : MicroClawError :=
  .Config ("ClawHub download HTTP error at " ++ url ++ ": status "
    ++ toString status)

/-- The error produced when reading a successful response's body fails
(client.rs lines 124-126). -/
def bodyErrorOf (url e : String) : MicroClawError :=
  .Config ("Failed to read download from " ++ url ++ ": " ++ e)

/-- The candidate loop of download_skill (client.rs lines 95-132): transport
errors and HTTP-status errors update `last_error` and `continue`; a body
read error propagates immediately via `?`; success returns the bytes; an
exhausted list returns the last error. -/
def downloadGo (world : DownloadWorld) (token : Option String) :
    List String → Option MicroClawError → Except MicroClawError (List Nat)
  | [], last_error =>
    .error (last_error.getD (.Config "ClawHub download failed: no usable endpoint"))
  | url :: rest, _last_error =>
    match world (downloadRequest token url) with
    | .error e => downloadGo world token rest (some (sendErrorOf url e))
    | .ok resp =>
      if statusIsError resp.status then
        downloadGo world token rest (some (httpErrorOf url resp.status))
      else
        match resp.body with
        | .error e => .error (bodyErrorOf url e)
        | .ok bytes => .ok bytes

/-- `ClawHubClient::download_skill` (client.rs lines 70-133). -/
def download_skill (world : DownloadWorld) (base_url : String)
    (token : Option String) (slug version : String) :
    Except MicroClawError (List Nat) :=
  downloadGo world token (candidateUrls base_url slug version) none

/-- A candidate attempt "skips": its send fails or its status is 4xx/5xx, so
the loop records an error and moves to the next candidate. -/
def attemptSkips (world : DownloadWorld) (token : Option String)
    (url : String) : Prop :=
  (∃ e, world (downloadRequest token url) = .error e) ∨
  (∃ resp, world (downloadRequest token url) = .ok resp ∧
    statusIsError resp.status = true)

/-- The error the loop records for a skipping candidate attempt. -/
def skipErrorOf (world : DownloadWorld) (token : Option String)
    (url : String) : MicroClawError :=
  match world (downloadRequest token url) with
  | .error e => sendErrorOf url e
  | .ok resp => httpErrorOf url resp.status

/-- A candidate attempt succeeds outright: send succeeds, status is not
4xx/5xx, and the body reads as `bytes`. -/
def attemptOk (world : DownloadWorld) (token : Option String)
    (url : String) (bytes : List Nat) : Prop :=
  ∃ resp, world (downloadRequest token url) = .ok resp ∧
    statusIsError resp.status = false ∧ resp.body = .ok bytes

/-- A candidate attempt reaches a success status but its body read fails
with message `e`. -/
def attemptBodyErr (world : DownloadWorld) (token : Option String)
    (url : String) (e : String) : Prop :=
  ∃ resp, world (downloadRequest token url) = .ok resp ∧
    statusIsError resp.status = false ∧ resp.body = .error e

/-- Network as seen by search: send may fail, then JSON decoding of the body
may fail. -/
def SearchWorld : Type :=
  HttpRequest → Except String (Except String ApiSearchResponse)

/-- The request search sends (client.rs lines 27-34); the `_sort` argument
is unused, exactly as in the source. -/
def searchRequest (base_url : String) (token : Option String)
    (query : String) (limit : Nat) (_sort : String) : HttpRequest :=
  { url := base_url ++ "/api/v1/search?q=" ++ query ++ "&limit=" ++ toString limit,
    headers := authHeaders token }

/-- `ClawHubClient::search` (client.rs lines 20-49): one request to the
search endpoint, then decode, then defensive `take limit`. -/
def search (world : SearchWorld) (base_url : String) (token : Option String)
    (query : String) (limit : Nat) (_sort : String) :
    Except MicroClawError (List SearchResult) :=
  match world (searchRequest base_url token query limit _sort) with
  | .error e => .error (.Config ("ClawHub request failed: " ++ e))
  | .ok (.error e) => .error (.Config ("Failed to parse search results: " ++ e))
  | .ok (.ok resp) => .ok (resp.results.take limit)

/-- Network as seen by get_skill. -/
def GetSkillWorld : Type :=
  HttpRequest → Except String (Except String SkillMeta)

/-- The request get_skill sends (client.rs lines 53-57). -/
def getSkillRequest (base_url : String) (token : Option String)
    (slug : String) : HttpRequest :=
  { url := base_url ++ "/api/v1/skills/" ++ slug, headers := authHeaders token }

/-- `ClawHubClient::get_skill` (client.rs lines 52-67). -/
def get_skill (world : GetSkillWorld) (base_url : String)
    (token : Option String) (slug : String) :
    Except MicroClawError SkillMeta :=
  match world (getSkillRequest base_url token slug) with
  | .error e => .error (.Config ("ClawHub request failed: " ++ e))
  | .ok (.error e) => .error (.Config ("Failed to parse skill metadata: " ++ e))
  | .ok (.ok meta) => .ok meta

/-- Network as seen by get_versions. -/
def GetVersionsWorld : Type :=
  HttpRequest → Except String (Except String (List SkillVersion))

/-- The request get_versions sends (client.rs lines 137-141). -/
def getVersionsRequest (base_url : String) (token : Option String)
    (slug : String) : HttpRequest :=
  { url := base_url ++ "/api/v1/skills/" ++ slug ++ "/versions",
    headers := authHeaders token }

/-- `ClawHubClient::get_versions` (client.rs lines 136-151). -/
def get_versions (world : GetVersionsWorld) (base_url : String)
    (token : Option String) (slug : String) :
    Except MicroClawError (List SkillVersion) :=
  match world (getVersionsRequest base_url token slug) with
  | .error e => .error (.Config ("ClawHub request failed: " ++ e))
  | .ok (.error e) => .error (.Config ("Failed to parse versions: " ++ e))
  | .ok (.ok versions) => .ok versions

/-- One observable event of the retry loop: an attempt (with its outcome) or
a sleep of a given number of milliseconds. -/
inductive RetryEvent (α : Type) where
  | attempt : Nat → Except MicroClawError α → RetryEvent α
  | sleepMs : Nat → RetryEvent α
deriving DecidableEq, Repr

/-- The `for attempt in 1..=3` loop of retry_with_backoff (cli.rs lines
17-28), instrumented with an event trace.  The operation is a function of
the attempt number since the Rust closure is `FnMut` and may answer
differently per call. -/
def retryAux {α : Type} (op : Nat → Except MicroClawError α) :
    List Nat → Option MicroClawError →
    Except MicroClawError α × List (RetryEvent α)
  | [], last_error =>
    (.error (last_error.getD (.Config "Unexpected error during retry")), [])
  | a :: rest, _last_error =>
    match op a with
    | .ok result => (.ok result, [.attempt a (.ok result)])
    | .error e =>
      let tail := retryAux op rest (some e)
      (tail.1,
        .attempt a (.error e)
          :: ((if a < 3 then [RetryEvent.sleepMs 500] else []) ++ tail.2))

/-- `retry_with_backoff` (cli.rs lines 12-31): up to 3 attempts, sleeping
500ms after a failed attempt when another attempt remains.  Returns the
result together with the event trace. -/
def retry_with_backoff {α : Type} (op : Nat → Except MicroClawError α) :
    Except MicroClawError α × List (RetryEvent α) :=
  retryAux op [1, 2, 3] none

/-- Output captured from a CLI handler: the lines printed to stdout and to
stderr (one entry per println!/eprintln! call; embedded newlines from the
format strings are kept). -/
structure CliOutput where
  stdout : List String
  stderr : List String
deriving DecidableEq, Repr

/-- The per-result stdout lines of the search success branch (cli.rs lines
66-74). -/
def fmtSearchResult (r : SearchResult) : List String :=
  ["  " ++ r.slug ++ " - " ++ r.name,
   "    " ++ r.description,
   "    " ++ toString r.install_count ++ " installs"]
  ++ (match r.virustotal with
      | some vt => ["    VirusTotal: " ++ vt.status ++ " ("
          ++ toString vt.report_count ++ ")"]
      | none => [])
  ++ [""]

/-- The `SkillCommand::Search` arm of handle_skill_cli (cli.rs lines 55-79):
search through the retry wrapper; print results on success, print
"Search failed: ..." to stderr on failure; return Ok either way. -/
def handleSearchCmd (op : Nat → Except MicroClawError (List SearchResult)) :
    CliOutput × Except MicroClawError Unit :=
  match (retry_with_backoff op).1 with
  | .ok results =>
    ({ stdout := ("Found " ++ toString results.length ++ " skills:\n")
         :: results.flatMap fmtSearchResult,
       stderr := [] }, .ok ())
  | .error e =>
    ({ stdout := [], stderr := ["Search failed: " ++ e.render] }, .ok ())

/-- Result of one install run (fields as used by cli.rs: message,
requires_restart). -/
structure InstallResult where
  message : String
  requires_restart : Bool
deriving DecidableEq, Repr

/-- The `SkillCommand::Install` arm of handle_skill_cli (cli.rs lines
80-113): install through the retry wrapper; print the message (and the
restart hint when required) on success, print "Install failed: ..." to
stderr on failure; return Ok either way. -/
def handleInstallCmd (op : Nat → Except MicroClawError InstallResult) :
    CliOutput × Except MicroClawError Unit :=
  match (retry_with_backoff op).1 with
  | .ok result =>
    ({ stdout := [result.message]
         ++ (if result.requires_restart then
               ["Restart MicroClaw or run /reload-skills to activate."]
             else []),
       stderr := [] }, .ok ())
  | .error e =>
    ({ stdout := [], stderr := ["Install failed: " ++ e.render] }, .ok ())

/-- The per-version stdout line of the inspect success branch (cli.rs lines
152-155). -/
def fmtVersionLine (v : SkillVersion) : String :=
  "  v" ++ v.version ++ (if v.latest then " (latest)" else "")

/-- The `SkillCommand::Inspect` arm of handle_skill_cli (cli.rs lines
139-163): get_skill through the retry wrapper; print the metadata on
success, print "Inspect failed: ..." to stderr on failure; return Ok either
way. -/
def handleInspectCmd (op : Nat → Except MicroClawError SkillMeta) :
    CliOutput × Except MicroClawError Unit :=
  match (retry_with_backoff op).1 with
  | .ok meta =>
    ({ stdout := ["Skill: " ++ meta.name ++ " (" ++ meta.slug ++ ")",
                  meta.description,
                  "\nVersions:"]
         ++ meta.versions.map fmtVersionLine
         ++ (match meta.virustotal with
             | some vt => ["\nVirusTotal: " ++ vt.status ++ " ("
                 ++ toString vt.report_count ++ " reports)"]
             | none => []),
       stderr := [] }, .ok ())
  | .error e =>
    ({ stdout := [], stderr := ["Inspect failed: " ++ e.render] }, .ok ())

/-- Modelled from the spec: `read_lockfile(path)` (lockfile.rs is not among
the provided sources; service.rs line 78 only forwards to it).  The
filesystem at the path is `none` (no file) or `some content`; the structured
parse either yields a lockfile or fails.  Per the spec: a missing file
yields an empty LockFile, a present but unparsable file fails with
`ParseError`. -/
def read_lockfile (parse : String → Option LockFile)
    (file : Option String) : Except MicroClawError LockFile :=
  match file with
  | none => .ok { skills := [] }
  | some content =>
    match parse content with
    | none => .error (.ParseError "invalid lockfile")
    | some lock => .ok lock

/-- Concrete network: the first download candidate answers 200 but its body
read fails; the second answers 200 with a readable body. -/
def cexWorldC1 : DownloadWorld := fun req =>
  if req.url = downloadQueryForm "https://reg.example" "pdf" "1.0" then
    .ok { status := 200, body := .error "boom" }
  else if req.url = downloadPathForm "https://reg.example" "pdf" "1.0" then
    .ok { status := 200, body := .ok [7] }
  else .error "unreachable"

/-- Concrete network: the first download candidate answers HTTP 500, the
second answers 200 with body [42] (the spec's fallback scenario). -/
def fallbackWorld : DownloadWorld := fun req =>
  if req.url = downloadQueryForm "https://registry.example" "weather" "2.0.1" then
    .ok { status := 500, body := .ok [] }
  else if req.url = downloadPathForm "https://registry.example" "weather" "2.0.1" then
    .ok { status := 200, body := .ok [42] }
  else .error "unreachable"

/-- Concrete network: first candidate 200-with-failing-body-read, second
candidate 200 with readable body. -/
def cexWorldC2 : DownloadWorld := fun req =>
  if req.url = downloadQueryForm "https://registry.test" "notes" "0.3.0" then
    .ok { status := 200, body := .error "truncated" }
  else if req.url = downloadPathForm "https://registry.test" "notes" "0.3.0" then
    .ok { status := 200, body := .ok [1, 2, 3] }
  else .error "unreachable"

/-- Concrete network exercising each of the three attempt failure modes on
dedicated URLs. -/
def modesWorld : DownloadWorld := fun req =>
  if req.url = "https://m.example/send" then .error "connection reset"
  else if req.url = "https://m.example/http" then .ok { status := 404, body := .ok [] }
  else if req.url = "https://m.example/body" then .ok { status := 200, body := .error "eof" }
  else .ok { status := 200, body := .ok [9] }

/-- Operation that fails with a NotFound-kind error on the first attempt and
succeeds on the second. -/
def notFoundThenOk : Nat → Except MicroClawError Nat := fun n =>
  if n = 1 then .error (.NotFound "no such skill") else .ok 0

/-- Operation that fails with a GateDenied-kind error on the first attempt
and succeeds on the second. -/
def gateDeniedThenOk : Nat → Except MicroClawError Nat := fun n =>
  if n = 1 then .error (.GateDenied "scan flagged malicious") else .ok 1

/-- Operation that fails on every attempt with a distinct message. -/
def alwaysFailsOp : Nat → Except MicroClawError Nat := fun n =>
  .error (.Config ("boom " ++ toString n))

/-- A sample search result with the given slug. -/
def sampleResult (s : String) : SearchResult :=
  { slug := s, name := s, description := "d", install_count := 1,
    virustotal := none }

/-- Concrete search network answering three results to every request. -/
def searchWorldThree : SearchWorld := fun _ =>
  .ok (.ok { results := [sampleResult "a", sampleResult "b", sampleResult "c"] })

/-- Concrete search network answering an empty result list. -/
def anonSearchWorld : SearchWorld := fun _ =>
  .ok (.ok { results := [] })

/-- Concrete get_skill network answering a fixed metadata record. -/
def anonSkillWorld : GetSkillWorld := fun _ =>
  .ok (.ok { slug := "pdf", name := "PDF", description := "d", versions := [],
             virustotal := none })

/-- Search operation that always fails with a transport-kind error. -/
def searchFailsOp : Nat → Except MicroClawError (List SearchResult) :=
  fun _ => .error (.Config "dns failure")

/-- Install operation that always fails with a gate denial. -/
def installFailsOp : Nat → Except MicroClawError InstallResult :=
  fun _ => .error (.GateDenied "malicious scan status")

/-- Inspect operation that always fails with a transport-kind error. -/
def inspectFailsOp : Nat → Except MicroClawError SkillMeta :=
  fun _ => .error (.Config "timed out")

/-- A structured-parse stub that rejects every content. -/
def rejectAllParse : String → Option LockFile := fun _ => none

theorem downloadGo_nil (world : DownloadWorld) (token : Option String)
    (last : Option MicroClawError) :
    downloadGo world token [] last
      = .error (last.getD (.Config "ClawHub download failed: no usable endpoint")) := rfl

theorem downloadGo_cons_send (world : DownloadWorld) (token : Option String)
    (url : String) (rest : List String) (last : Option MicroClawError)
    (e : String) (h : world (downloadRequest token url) = .error e) :
    downloadGo world token (url :: rest) last
      = downloadGo world token rest (some (sendErrorOf url e)) := by
  simp [downloadGo, h]

theorem downloadGo_cons_http (world : DownloadWorld) (token : Option String)
    (url : String) (rest : List String) (last : Option MicroClawError)
    (resp : HttpResponse) (h : world (downloadRequest token url) = .ok resp)
    (hs : statusIsError resp.status = true) :
    downloadGo world token (url :: rest) last
      = downloadGo world token rest (some (httpErrorOf url resp.status)) := by
  simp [downloadGo, h, hs]

theorem downloadGo_cons_body (world : DownloadWorld) (token : Option String)
    (url : String) (rest : List String) (last : Option MicroClawError)
    (resp : HttpResponse) (e : String)
    (h : world (downloadRequest token url) = .ok resp)
    (hs : statusIsError resp.status = false) (hb : resp.body = .error e) :
    downloadGo world token (url :: rest) last = .error (bodyErrorOf url e) := by
  simp [downloadGo, h, hs, hb]

theorem downloadGo_cons_ok (world : DownloadWorld) (token : Option String)
    (url : String) (rest : List String) (last : Option MicroClawError)
    (resp : HttpResponse) (bytes : List Nat)
    (h : world (downloadRequest token url) = .ok resp)
    (hs : statusIsError resp.status = false) (hb : resp.body = .ok bytes) :
    downloadGo world token (url :: rest) last = .ok bytes := by
  simp [downloadGo, h, hs, hb]

theorem downloadGo_skip (world : DownloadWorld) (token : Option String)
    (url : String) (rest : List String) (last : Option MicroClawError)
    (h : attemptSkips world token url) :
    downloadGo world token (url :: rest) last
      = downloadGo world token rest (some (skipErrorOf world token url)) := by
  rcases h with ⟨e, he⟩ | ⟨resp, hr, hs⟩
  · rw [downloadGo_cons_send world token url rest last e he]
    simp [skipErrorOf, he]
  · rw [downloadGo_cons_http world token url rest last resp hr hs]
    simp [skipErrorOf, hr]

theorem downloadGo_skips_append (world : DownloadWorld)
    (token : Option String) (pre : List String) :
    (∀ u ∈ pre, attemptSkips world token u) →
    ∀ (l : List String) (last : Option MicroClawError),
      ∃ last2, downloadGo world token (pre ++ l) last
        = downloadGo world token l last2 := by
  induction pre with
  | nil => exact fun _ l last => ⟨last, rfl⟩
  | cons u pre ih =>
    intro h l last
    have hu : attemptSkips world token u := h u (List.mem_cons_self u pre)
    have hrest : ∀ v ∈ pre, attemptSkips world token v :=
      fun v hv => h v (List.mem_cons_of_mem u hv)
    rw [List.cons_append,
        downloadGo_skip world token u (pre ++ l) last hu]
    exact ih hrest l (some (skipErrorOf world token u))

theorem downloadGo_all_skip (world : DownloadWorld) (token : Option String)
    (l : List String) :
    (∀ u ∈ l, attemptSkips world token u) →
    ∀ last : Option MicroClawError,
      downloadGo world token l last
        = .error (match l.getLast? with
            | some u => skipErrorOf world token u
            | none => last.getD (.Config "ClawHub download failed: no usable endpoint")) := by
  induction l with
  | nil => intro _ last; simp [downloadGo_nil]
  | cons u rest ih =>
    intro h last
    have hu : attemptSkips world token u := h u (List.mem_cons_self u rest)
    have hrest : ∀ v ∈ rest, attemptSkips world token v :=
      fun v hv => h v (List.mem_cons_of_mem u hv)
    rw [downloadGo_skip world token u rest last hu,
        ih hrest (some (skipErrorOf world token u))]
    cases rest with
    | nil => simp
    | cons v tl =>
      cases hgl : (v :: tl).getLast? with
      | none => simp [List.getLast?_eq_none_iff] at hgl
      | some w => simp [hgl]

/-- C1 (counterexample): with `cexWorldC1`, the first candidate answers a
success HTTP status but its body read fails, and download_skill returns
that error at once even though the second candidate (still untried, so the
candidate list is not exhausted) would have succeeded — contradicting
"returns the bytes of the first candidate that yields a success HTTP
status" and "returns an error only when every candidate has been
exhausted". -/
theorem download_body_error_aborts_cex :
    download_skill cexWorldC1 "https://reg.example" none "pdf" "1.0"
        = .error (bodyErrorOf (downloadQueryForm "https://reg.example" "pdf" "1.0") "boom")
      ∧ attemptOk cexWorldC1 none
          (downloadPathForm "https://reg.example" "pdf" "1.0") [7]
      ∧ candidateUrls "https://reg.example" "pdf" "1.0"
          = [downloadQueryForm "https://reg.example" "pdf" "1.0",
             downloadPathForm "https://reg.example" "pdf" "1.0"] := by
  refine ⟨by decide, ⟨{ status := 200, body := .ok [7] }, by decide, by decide, by decide⟩, by decide⟩

/-- C1 (amended): download_skill tries its candidates in order; it returns
the bytes of the first candidate that yields a success HTTP status *and a
successful body read*, skipping over candidates that fail on send or with a
non-success status; a body-read error on a success-status candidate aborts
the whole call with that error; and when every candidate fails on send or
status, the call returns the error recorded for the last candidate. -/
theorem download_skill_fallback_characterization (world : DownloadWorld)
    (base_url : String) (token : Option String) (slug version : String) :
    (∀ pre url rest bytes,
        candidateUrls base_url slug version = pre ++ url :: rest →
        (∀ u ∈ pre, attemptSkips world token u) →
        attemptOk world token url bytes →
        download_skill world base_url token slug version = .ok bytes)
    ∧ (∀ pre url rest e,
        candidateUrls base_url slug version = pre ++ url :: rest →
        (∀ u ∈ pre, attemptSkips world token u) →
        attemptBodyErr world token url e →
        download_skill world base_url token slug version
          = .error (bodyErrorOf url e))
    ∧ (∀ url,
        (candidateUrls base_url slug version).getLast? = some url →
        (∀ u ∈ candidateUrls base_url slug version, attemptSkips world token u) →
        download_skill world base_url token slug version
          = .error (skipErrorOf world token url)) := by
  refine ⟨?_, ?_, ?_⟩
  · intro pre url rest bytes hsplit hskips hok
    rcases hok with ⟨resp, hr, hs, hb⟩
    unfold download_skill
    rw [hsplit]
    obtain ⟨last2, heq⟩ := downloadGo_skips_append world token pre hskips (url :: rest) none
    rw [heq, downloadGo_cons_ok world token url rest last2 resp bytes hr hs hb]
  · intro pre url rest e hsplit hskips hbe
    rcases hbe with ⟨resp, hr, hs, hb⟩
    unfold download_skill
    rw [hsplit]
    obtain ⟨last2, heq⟩ := downloadGo_skips_append world token pre hskips (url :: rest) none
    rw [heq, downloadGo_cons_body world token url rest last2 resp e hr hs hb]
  · intro url hlast hskips
    unfold download_skill
    rw [downloadGo_all_skip world token _ hskips none, hlast]

/-- C1 (witness): the spec's fallback scenario — first candidate HTTP 500,
second candidate HTTP 200 — returns the second candidate's bytes. -/
theorem download_skill_fallback_witness :
    download_skill fallbackWorld "https://registry.example" none "weather" "2.0.1"
      = .ok [42] := by
  refine (download_skill_fallback_characterization fallbackWorld
      "https://registry.example" none "weather" "2.0.1").1
    [downloadQueryForm "https://registry.example" "weather" "2.0.1"]
    (downloadPathForm "https://registry.example" "weather" "2.0.1") [] [42]
    (by decide) ?_ ?_
  · intro u hu
    simp only [List.mem_singleton] at hu
    subst hu
    exact Or.inr ⟨{ status := 500, body := .ok [] }, by decide, by decide⟩
  · exact ⟨{ status := 200, body := .ok [42] }, by decide, by decide, by decide⟩

/-- C2 (counterexample): with `cexWorldC2` the first candidate's body read
fails after a success status; the client aborts the whole call with that
error instead of moving on to the second candidate, which would have
succeeded — so the body-read failure mode does not "move on to the next
candidate". -/
theorem download_attempt_modes_cex :
    download_skill cexWorldC2 "https://registry.test" none "notes" "0.3.0"
        = .error (bodyErrorOf (downloadQueryForm "https://registry.test" "notes" "0.3.0") "truncated")
      ∧ attemptOk cexWorldC2 none
          (downloadPathForm "https://registry.test" "notes" "0.3.0") [1, 2, 3] := by
  refine ⟨by decide, ⟨{ status := 200, body := .ok [1, 2, 3] }, by decide, by decide, by decide⟩⟩

/-- C2 (amended): of the three failure modes of a candidate attempt, a
transport error on send and a non-success HTTP status record the error and
move on to the remaining candidates, while a body-read error aborts the
whole call immediately with that error. -/
theorem download_attempt_failure_modes (world : DownloadWorld)
    (token : Option String) (url : String) (rest : List String)
    (last : Option MicroClawError) :
    (∀ e, world (downloadRequest token url) = .error e →
        downloadGo world token (url :: rest) last
          = downloadGo world token rest (some (sendErrorOf url e)))
    ∧ (∀ resp, world (downloadRequest token url) = .ok resp →
        statusIsError resp.status = true →
        downloadGo world token (url :: rest) last
          = downloadGo world token rest (some (httpErrorOf url resp.status)))
    ∧ (∀ resp e, world (downloadRequest token url) = .ok resp →
        statusIsError resp.status = false → resp.body = .error e →
        downloadGo world token (url :: rest) last = .error (bodyErrorOf url e)) :=
  ⟨fun e h => downloadGo_cons_send world token url rest last e h,
   fun resp h hs => downloadGo_cons_http world token url rest last resp h hs,
   fun resp e h hs hb => downloadGo_cons_body world token url rest last resp e h hs hb⟩

/-- C2 (witness): each failure mode exercised on `modesWorld`: the send
failure and the 404 move on to the remaining candidate, the body-read
failure aborts. -/
theorem download_attempt_failure_modes_witness :
    downloadGo modesWorld none ["https://m.example/send", "https://m.example/ok"] none
        = downloadGo modesWorld none ["https://m.example/ok"]
            (some (sendErrorOf "https://m.example/send" "connection reset"))
      ∧ downloadGo modesWorld none ["https://m.example/http", "https://m.example/ok"] none
        = downloadGo modesWorld none ["https://m.example/ok"]
            (some (httpErrorOf "https://m.example/http" 404))
      ∧ downloadGo modesWorld none ["https://m.example/body", "https://m.example/ok"] none
        = .error (bodyErrorOf "https://m.example/body" "eof") := by
  refine ⟨(download_attempt_failure_modes modesWorld none "https://m.example/send"
      ["https://m.example/ok"] none).1 "connection reset" (by decide),
    ?_,
    (download_attempt_failure_modes modesWorld none "https://m.example/body"
      ["https://m.example/ok"] none).2.2
      { status := 200, body := .error "eof" } "eof" (by decide) (by decide) (by decide)⟩
  exact (download_attempt_failure_modes modesWorld none "https://m.example/http"
      ["https://m.example/ok"] none).2.1
      { status := 404, body := .ok [] } (by decide) (by decide)

/-- C3 (counterexample): a first attempt failing with a NotFound-kind error
is retried rather than propagated immediately — the trace shows a sleep and
a second attempt, and the call succeeds on that second attempt. -/
theorem retry_kind_blind_cex :
    notFoundThenOk 1 = .error (.NotFound "no such skill")
      ∧ retry_with_backoff notFoundThenOk
        = (.ok 0, [.attempt 1 (.error (.NotFound "no such skill")),
                   .sleepMs 500, .attempt 2 (.ok 0)]) := by
  exact ⟨by decide, by decide⟩

/-- C3 (amended): the retry wrapper does not discriminate by error kind:
any failed attempt before the third — whatever its error — is followed by a
500ms sleep and another attempt (a failed attempt 1 by attempt 2; failed
attempts 1 and 2 by attempt 3, whose outcome ends the trace), and an error
propagates to the caller exactly when all three attempts fail, in which
case it is the third attempt's error (of whatever kind). -/
theorem retry_retries_every_error_kind {α : Type}
    (op : Nat → Except MicroClawError α) :
    (∀ e, op 1 = .error e →
        ∃ tail, (retry_with_backoff op).2
          = .attempt 1 (.error e) :: .sleepMs 500 :: .attempt 2 (op 2) :: tail)
    ∧ (∀ e₁ e₂, op 1 = .error e₁ → op 2 = .error e₂ →
        (retry_with_backoff op).2
          = [.attempt 1 (.error e₁), .sleepMs 500, .attempt 2 (.error e₂),
             .sleepMs 500, .attempt 3 (op 3)])
    ∧ (∀ e₁ e₂ e₃, op 1 = .error e₁ → op 2 = .error e₂ → op 3 = .error e₃ →
        (retry_with_backoff op).1 = .error e₃)
    ∧ (∀ e, (retry_with_backoff op).1 = .error e →
        ∃ e₁ e₂, op 1 = .error e₁ ∧ op 2 = .error e₂ ∧ op 3 = .error e) := by
  refine ⟨?_, ?_, ?_, ?_⟩
  · intro e h1
    cases h2 : op 2 with
    | ok r => exact ⟨[], by simp [retry_with_backoff, retryAux, h1, h2]⟩
    | error e₂ =>
      cases h3 : op 3 with
      | ok r =>
        exact ⟨[.sleepMs 500, .attempt 3 (.ok r)],
          by simp [retry_with_backoff, retryAux, h1, h2, h3]⟩
      | error e₃ =>
        exact ⟨[.sleepMs 500, .attempt 3 (.error e₃)],
          by simp [retry_with_backoff, retryAux, h1, h2, h3]⟩
  · intro e₁ e₂ h1 h2
    cases h3 : op 3 with
    | ok r => simp [retry_with_backoff, retryAux, h1, h2, h3]
    | error e₃ => simp [retry_with_backoff, retryAux, h1, h2, h3]
  · intro e₁ e₂ e₃ h1 h2 h3
    simp [retry_with_backoff, retryAux, h1, h2, h3]
  · intro e he
    cases h1 : op 1 with
    | ok r => rw [show (retry_with_backoff op).1 = .ok r from
        by simp [retry_with_backoff, retryAux, h1]] at he; exact absurd he (by simp)
    | error e₁ =>
      cases h2 : op 2 with
      | ok r => rw [show (retry_with_backoff op).1 = .ok r from
          by simp [retry_with_backoff, retryAux, h1, h2]] at he; exact absurd he (by simp)
      | error e₂ =>
        cases h3 : op 3 with
        | ok r => rw [show (retry_with_backoff op).1 = .ok r from
            by simp [retry_with_backoff, retryAux, h1, h2, h3]] at he; exact absurd he (by simp)
        | error e₃ =>
          rw [show (retry_with_backoff op).1 = .error e₃ from
            by simp [retry_with_backoff, retryAux, h1, h2, h3]] at he
          simp only [Except.error.injEq] at he
          subst he
          exact ⟨e₁, e₂, rfl, rfl, rfl⟩

/-- C3 (witness): a GateDenied-kind failure on the first attempt is retried
(the trace continues with attempt 2); two Config-kind failures are followed
by a sleep and the third attempt, which ends the trace; three Config-kind
failures propagate the third one; and the propagated error implies all
three attempts failed, with the error being the third attempt's. -/
theorem retry_retries_every_error_kind_witness :
    (∃ tail, (retry_with_backoff gateDeniedThenOk).2
        = .attempt 1 (.error (.GateDenied "scan flagged malicious"))
            :: .sleepMs 500 :: .attempt 2 (gateDeniedThenOk 2) :: tail)
      ∧ (retry_with_backoff alwaysFailsOp).2
        = [.attempt 1 (.error (.Config "boom 1")), .sleepMs 500,
           .attempt 2 (.error (.Config "boom 2")), .sleepMs 500,
           .attempt 3 (alwaysFailsOp 3)]
      ∧ (retry_with_backoff alwaysFailsOp).1 = .error (.Config "boom 3")
      ∧ (∃ e₁ e₂, alwaysFailsOp 1 = .error e₁ ∧ alwaysFailsOp 2 = .error e₂
          ∧ alwaysFailsOp 3 = .error (.Config "boom 3")) := by
  exact ⟨(retry_retries_every_error_kind gateDeniedThenOk).1
      (.GateDenied "scan flagged malicious") (by decide),
    (retry_retries_every_error_kind alwaysFailsOp).2.1
      (.Config "boom 1") (.Config "boom 2") (by decide) (by decide),
    (retry_retries_every_error_kind alwaysFailsOp).2.2.1
      (.Config "boom 1") (.Config "boom 2") (.Config "boom 3")
      (by decide) (by decide) (by decide),
    (retry_retries_every_error_kind alwaysFailsOp).2.2.2
      (.Config "boom 3") (by decide)⟩

/-- C6: full characterization of the retry policy: an immediate success is
returned from attempt 1 with no sleep; a failure is followed by one 500ms
sleep and the next attempt; at most 3 attempts are made; and when all three
fail the third attempt's error is returned, with no sleep after the final
attempt. -/
theorem retry_policy_characterization {α : Type}
    (op : Nat → Except MicroClawError α) :
    (∀ r, op 1 = .ok r →
        retry_with_backoff op = (.ok r, [.attempt 1 (.ok r)]))
    ∧ (∀ e₁ r, op 1 = .error e₁ → op 2 = .ok r →
        retry_with_backoff op
          = (.ok r, [.attempt 1 (.error e₁), .sleepMs 500, .attempt 2 (.ok r)]))
    ∧ (∀ e₁ e₂ r, op 1 = .error e₁ → op 2 = .error e₂ → op 3 = .ok r →
        retry_with_backoff op
          = (.ok r, [.attempt 1 (.error e₁), .sleepMs 500,
                     .attempt 2 (.error e₂), .sleepMs 500, .attempt 3 (.ok r)]))
    ∧ (∀ e₁ e₂ e₃, op 1 = .error e₁ → op 2 = .error e₂ → op 3 = .error e₃ →
        retry_with_backoff op
          = (.error e₃, [.attempt 1 (.error e₁), .sleepMs 500,
                         .attempt 2 (.error e₂), .sleepMs 500,
                         .attempt 3 (.error e₃)])) := by
  refine ⟨?_, ?_, ?_, ?_⟩
  · intro r h1; simp [retry_with_backoff, retryAux, h1]
  · intro e₁ r h1 h2; simp [retry_with_backoff, retryAux, h1, h2]
  · intro e₁ e₂ r h1 h2 h3; simp [retry_with_backoff, retryAux, h1, h2, h3]
  · intro e₁ e₂ e₃ h1 h2 h3; simp [retry_with_backoff, retryAux, h1, h2, h3]

/-- C6 (witness): with an operation failing every attempt, exactly three
attempts are made, separated by 500ms sleeps, and the third error is
returned. -/
theorem retry_policy_characterization_witness :
    retry_with_backoff alwaysFailsOp
      = (.error (.Config "boom 3"),
         [.attempt 1 (.error (.Config "boom 1")), .sleepMs 500,
          .attempt 2 (.error (.Config "boom 2")), .sleepMs 500,
          .attempt 3 (.error (.Config "boom 3"))]) := by
  exact (retry_policy_characterization alwaysFailsOp).2.2.2
    (.Config "boom 1") (.Config "boom 2") (.Config "boom 3")
    (by decide) (by decide) (by decide)

/-- C4 (counterexample): the base URL "https://example.com/clawhub.ai" has
host "example.com", which is not the production registry domain, yet the
candidate list still contains the hard-coded legacy mirror as a third
entry, because the code tests substring containment of "clawhub.ai" in the
whole base URL rather than the host. -/
theorem legacy_mirror_substring_cex :
    spec_hostOf "https://example.com/clawhub.ai" = "example.com"
      ∧ spec_hostOf "https://example.com/clawhub.ai" ≠ "clawhub.ai"
      ∧ candidateUrls "https://example.com/clawhub.ai" "pdf" "1.0"
        = [downloadQueryForm "https://example.com/clawhub.ai" "pdf" "1.0",
           downloadPathForm "https://example.com/clawhub.ai" "pdf" "1.0",
           legacyMirrorUrl "pdf" "1.0"] := by
  exact ⟨by decide, by decide, by decide⟩

/-- C4 (amended): download_skill includes the legacy mirror as an extra
candidate exactly when the configured base URL *contains the substring*
"clawhub.ai" (anywhere, not only as its host); otherwise the candidate list
is exactly the query-parameter form followed by the path form. -/
theorem candidate_list_structure (base_url slug version : String) :
    (containsSubstr base_url "clawhub.ai" = true →
        candidateUrls base_url slug version
          = [downloadQueryForm base_url slug version,
             downloadPathForm base_url slug version,
             legacyMirrorUrl slug version])
    ∧ (containsSubstr base_url "clawhub.ai" = false →
        candidateUrls base_url slug version
          = [downloadQueryForm base_url slug version,
             downloadPathForm base_url slug version]) := by
  constructor
  · intro h; simp [candidateUrls, h]
  · intro h; simp [candidateUrls, h]

/-- C4 (witness): the production base URL gets three candidates; an
unrelated registry gets exactly the two base-derived forms. -/
theorem candidate_list_structure_witness :
    candidateUrls "https://clawhub.ai" "pdf" "1.0"
        = [downloadQueryForm "https://clawhub.ai" "pdf" "1.0",
           downloadPathForm "https://clawhub.ai" "pdf" "1.0",
           legacyMirrorUrl "pdf" "1.0"]
      ∧ candidateUrls "https://registry.test" "pdf" "1.0"
        = [downloadQueryForm "https://registry.test" "pdf" "1.0",
           downloadPathForm "https://registry.test" "pdf" "1.0"] := by
  exact ⟨(candidate_list_structure "https://clawhub.ai" "pdf" "1.0").1 (by decide),
    (candidate_list_structure "https://registry.test" "pdf" "1.0").2 (by decide)⟩

/-- C5: whatever the registry's response carries, a successful search
returns at most `limit` results — the client truncates defensively with
`take limit`. -/
theorem search_truncates_to_limit (world : SearchWorld) (base_url : String)
    (token : Option String) (query : String) (limit : Nat) (sort : String)
    (r : List SearchResult)
    (h : search world base_url token query limit sort = .ok r) :
    r.length ≤ limit := by
  unfold search at h
  cases hw : world (searchRequest base_url token query limit sort) with
  | error e => rw [hw] at h; exact absurd h (by simp)
  | ok inner =>
    cases inner with
    | error e => rw [hw] at h; exact absurd h (by simp)
    | ok resp =>
      rw [hw] at h
      simp only [Except.ok.injEq] at h
      subst h
      simp [List.length_take_le]

/-- C5 (witness): a registry response carrying three results is truncated
to the requested limit of two. -/
theorem search_truncates_to_limit_witness :
    search searchWorldThree "https://clawhub.ai" none "pdf" 2 "trending"
        = .ok [sampleResult "a", sampleResult "b"]
      ∧ ([sampleResult "a", sampleResult "b"] : List SearchResult).length ≤ 2 := by
  exact ⟨by decide, search_truncates_to_limit searchWorldThree "https://clawhub.ai"
    none "pdf" 2 "trending" [sampleResult "a", sampleResult "b"] (by decide)⟩

/-- C10: the sort argument of search has no effect: two calls differing
only in sort build the identical request (the URL never mentions sort) and
produce the identical result against any network. -/
theorem search_sort_no_effect (world : SearchWorld) (base_url : String)
    (token : Option String) (query : String) (limit : Nat) (s₁ s₂ : String) :
    searchRequest base_url token query limit s₁
        = searchRequest base_url token query limit s₂
      ∧ search world base_url token query limit s₁
        = search world base_url token query limit s₂ :=
  ⟨rfl, rfl⟩

/-- C7: every registry request (search, get_skill, get_versions, and each
download candidate) carries "Authorization: Bearer <token>" when a token is
configured, carries no header at all otherwise, and the anonymous request is
still issued — a network answering it makes the operation succeed. -/
theorem bearer_token_headers (base_url slug query url sort t : String)
    (limit : Nat) :
    ((searchRequest base_url (some t) query limit sort).headers
          = [("Authorization", "Bearer " ++ t)]
        ∧ (getSkillRequest base_url (some t) slug).headers
          = [("Authorization", "Bearer " ++ t)]
        ∧ (getVersionsRequest base_url (some t) slug).headers
          = [("Authorization", "Bearer " ++ t)]
        ∧ (downloadRequest (some t) url).headers
          = [("Authorization", "Bearer " ++ t)])
      ∧ ((searchRequest base_url none query limit sort).headers = []
        ∧ (getSkillRequest base_url none slug).headers = []
        ∧ (getVersionsRequest base_url none slug).headers = []
        ∧ (downloadRequest none url).headers = [])
      ∧ (∀ (world : SearchWorld) (resp : ApiSearchResponse),
          world (searchRequest base_url none query limit sort) = .ok (.ok resp) →
          search world base_url none query limit sort = .ok (resp.results.take limit))
      ∧ (∀ (world : GetSkillWorld) (meta : SkillMeta),
          world (getSkillRequest base_url none slug) = .ok (.ok meta) →
          get_skill world base_url none slug = .ok meta) := by
  refine ⟨⟨rfl, rfl, rfl, rfl⟩, ⟨rfl, rfl, rfl, rfl⟩, ?_, ?_⟩
  · intro world resp h; simp [search, h]
  · intro world meta h; simp [get_skill, h]

/-- C7 (witness): header contents at a concrete token, and anonymous search
and get_skill succeeding against concrete networks. -/
theorem bearer_token_headers_witness :
    (searchRequest "https://clawhub.ai" (some "tok") "pdf" 10 "trending").headers
        = [("Authorization", "Bearer " ++ "tok")]
      ∧ (downloadRequest none "https://clawhub.ai/api/v1/download").headers = []
      ∧ search anonSearchWorld "https://clawhub.ai" none "pdf" 10 "trending" = .ok []
      ∧ get_skill anonSkillWorld "https://clawhub.ai" none "pdf"
        = .ok { slug := "pdf", name := "PDF", description := "d", versions := [],
                virustotal := none } := by
  refine ⟨(bearer_token_headers "https://clawhub.ai" "pdf" "pdf"
      "https://clawhub.ai/api/v1/download" "trending" "tok" 10).1.1,
    (bearer_token_headers "https://clawhub.ai" "pdf" "pdf"
      "https://clawhub.ai/api/v1/download" "trending" "tok" 10).2.1.2.2.2,
    ?_, ?_⟩
  · exact (bearer_token_headers "https://clawhub.ai" "pdf" "pdf"
      "https://clawhub.ai/api/v1/download" "trending" "tok" 10).2.2.1
      anonSearchWorld { results := [] } (by decide)
  · exact (bearer_token_headers "https://clawhub.ai" "pdf" "pdf"
      "https://clawhub.ai/api/v1/download" "trending" "tok" 10).2.2.2
      anonSkillWorld
      { slug := "pdf", name := "PDF", description := "d", versions := [],
        virustotal := none } (by decide)

/-- C8: when the retried gateway operation of a skill CLI subcommand
(search, install, inspect) fails, the handler prints the categorized
failure message to stderr, prints nothing to stdout, and returns Ok — the
host process is not aborted. -/
theorem cli_failure_nonfatal
    (opS : Nat → Except MicroClawError (List SearchResult))
    (opI : Nat → Except MicroClawError InstallResult)
    (opM : Nat → Except MicroClawError SkillMeta)
    (eS eI eM : MicroClawError) :
    ((retry_with_backoff opS).1 = .error eS →
        handleSearchCmd opS
          = ({ stdout := [], stderr := ["Search failed: " ++ eS.render] }, .ok ()))
    ∧ ((retry_with_backoff opI).1 = .error eI →
        handleInstallCmd opI
          = ({ stdout := [], stderr := ["Install failed: " ++ eI.render] }, .ok ()))
    ∧ ((retry_with_backoff opM).1 = .error eM →
        handleInspectCmd opM
          = ({ stdout := [], stderr := ["Inspect failed: " ++ eM.render] }, .ok ())) := by
  refine ⟨?_, ?_, ?_⟩
  · intro h; simp [handleSearchCmd, h]
  · intro h; simp [handleInstallCmd, h]
  · intro h; simp [handleInspectCmd, h]

/-- C8 (witness): concrete failing search/install/inspect operations yield
the stderr message and an Ok return. -/
theorem cli_failure_nonfatal_witness :
    handleSearchCmd searchFailsOp
        = ({ stdout := [], stderr := ["Search failed: dns failure"] }, .ok ())
      ∧ handleInstallCmd installFailsOp
        = ({ stdout := [], stderr := ["Install failed: malicious scan status"] }, .ok ())
      ∧ handleInspectCmd inspectFailsOp
        = ({ stdout := [], stderr := ["Inspect failed: timed out"] }, .ok ()) := by
  exact ⟨(cli_failure_nonfatal searchFailsOp installFailsOp inspectFailsOp
      (.Config "dns failure") (.GateDenied "malicious scan status")
      (.Config "timed out")).1 (by decide),
    (cli_failure_nonfatal searchFailsOp installFailsOp inspectFailsOp
      (.Config "dns failure") (.GateDenied "malicious scan status")
      (.Config "timed out")).2.1 (by decide),
    (cli_failure_nonfatal searchFailsOp installFailsOp inspectFailsOp
      (.Config "dns failure") (.GateDenied "malicious scan status")
      (.Config "timed out")).2.2 (by decide)⟩

/-- C9: read_lockfile returns an empty LockFile (not an error) when no file
exists, and fails with ParseError when the file exists but its content does
not parse as structured data. -/
theorem read_lockfile_missing_and_invalid
    (parse : String → Option LockFile) (content : String) :
    read_lockfile parse none = .ok { skills := [] }
      ∧ (parse content = none →
          ∃ m, read_lockfile parse (some content) = .error (.ParseError m)) := by
  refine ⟨rfl, ?_⟩
  intro h
  exact ⟨"invalid lockfile", by simp [read_lockfile, h]⟩

/-- C9 (witness): a missing file reads as the empty lockfile; a present but
unparsable file fails with a ParseError. -/
theorem read_lockfile_missing_and_invalid_witness :
    read_lockfile rejectAllParse none = .ok { skills := [] }
      ∧ ∃ m, read_lockfile rejectAllParse (some "garbage")
        = .error (.ParseError m) := by
  exact ⟨(read_lockfile_missing_and_invalid rejectAllParse "garbage").1,
    (read_lockfile_missing_and_invalid rejectAllParse "garbage").2 (by decide)⟩
